import Mathlib

/-!
Verification of the MAT array costing tool (a Streamlit application).

The development shallowly embeds the cost-model functions of the
repository in Lean: Python floats become rationals, Python ints become
integers, YAML/dict records become structures whose fields are
`Option`-wrapped values (a missing key is `Option.none`), and code that
can raise is modelled in `Except`. Each definition cites the source
file and lines it is translated from.
-/

/-- A Python value as it appears in a loaded YAML materials record:
a number (int or float, both modelled as a rational), a string that
`float()` cannot parse (a numeric string would have been loaded as a
YAML number), or `None` (YAML null). -/
inductive PyVal where
  | num : ℚ → PyVal
  | str : String → PyVal
  | null : PyVal
deriving DecidableEq

/-- Semantics of Python `float(v)`: succeeds exactly on numbers; on a
non-numeric string or `None` it raises (here: `Option.none`). -/
def pyFloat : PyVal → Option ℚ
  | PyVal.num q => some q
  | PyVal.str _ => none
  | PyVal.null => none

/-- Semantics of `float(record.get(key, dflt))` for a numeric default:
a missing key yields the default, a present value goes through
`pyFloat` (raising, i.e. `none`, on null or a non-numeric string). -/
def getFloat (field : Option PyVal) (dflt : ℚ) : Option ℚ :=
  match field with
  | Option.none => some dflt
  | Option.some v => pyFloat v

/-- Python truthiness of a record value (`if not x`): `None`, `0` and
the empty string are falsy. -/
def pyTruthy : PyVal → Bool
  | PyVal.num q => if q = 0 then false else true
  | PyVal.str s => if s = "" then false else true
  | PyVal.null => false

/-- Upper-casing a string character by character, the semantics of
Python `str.upper()` on ASCII currency codes. -/
def strUpper (s : String) : String := String.mk (s.data.map Char.toUpper)

/-- Lower-casing a string character by character, the semantics of
Python `str.lower()` on ASCII type/basis tags. -/
def strLower (s : String) : String := String.mk (s.data.map Char.toLower)

/-- Semantics of `record.get(key, dflt) or dflt` for a string-valued
field: a missing key or a falsy value (`None`, the empty string) gives
the default. The field type is `Option (Option String)`: the outer
option is key presence, the inner one distinguishes YAML null. -/
def strOrDefault (field : Option (Option String)) (dflt : String) : String :=
  match field with
  | Option.none => dflt
  | Option.some Option.none => dflt
  | Option.some (Option.some s) => if s = "" then dflt else s

/-- Semantics of `(record.get("currency", dflt) or dflt).upper()`. -/
def currencyOf (field : Option (Option String)) (dflt : String) : String :=
  strUpper (strOrDefault field dflt)

/-!
## Power model

From `src/pages/array_designs.py`, lines 10-39: module constants and
`compute_power_for_design`.
-/

def CELL_AREA_CM2 : ℚ := 20

def CELL_AREA_M2 : ℚ := CELL_AREA_CM2 / 10000

def IRRADIANCE_AM15 : ℚ := 1000

def IRRADIANCE_AM0 : ℚ := 1366

/-- The dictionary `compute_power_for_design` returns. -/
structure PowerResult where
  P_cell_AM15_W : ℚ
  P_array_AM15_W : ℚ
  P_cell_AM0_W : ℚ
  P_array_AM0_W : ℚ
deriving DecidableEq

/-- `compute_power_for_design` (`src/pages/array_designs.py` lines
17-39): per-cell and per-array power at AM1.5 and AM0, with the
efficiency inputs given as percentages. -/
def compute_power_for_design (num_cells eff_am15_percent eff_am0_percent : ℚ) :
    PowerResult :=
  let eff15 := eff_am15_percent / 100
  let eff0 := eff_am0_percent / 100
  let p_cell_15 := eff15 * IRRADIANCE_AM15 * CELL_AREA_M2
  let p_array_15 := p_cell_15 * num_cells
  let p_cell_0 := eff0 * IRRADIANCE_AM0 * CELL_AREA_M2
  let p_array_0 := p_cell_0 * num_cells
  { P_cell_AM15_W := p_cell_15
    P_array_AM15_W := p_array_15
    P_cell_AM0_W := p_cell_0
    P_array_AM0_W := p_array_0 }

/-!
## Array geometry

From `src/pages/cost_summary.py`, lines 343-349 (base length) and
line 560 (perimeter with the fixed 140 mm allowance).
-/

/-- Base array length in mm (`src/pages/cost_summary.py` lines
343-348): `cell_h * num_cells + gap * max(num_cells - 1, 0) + pos_gap
+ neg_gap`. -/
def base_length_mm (num_cells : ℤ)
    (cell_height_mm gap_between_cells_mm positive_end_gap_mm negative_end_gap_mm : ℚ) :
    ℚ :=
  cell_height_mm * (num_cells : ℚ)
    + gap_between_cells_mm * ((max (num_cells - 1) 0 : ℤ) : ℚ)
    + positive_end_gap_mm
    + negative_end_gap_mm

/-- Perimeter tape length in mm (`src/pages/cost_summary.py` line 560):
`2 * base_length_mm + 140.0`. -/
def perimeter_length_mm (base : ℚ) : ℚ := 2 * base + 140

/-!
## Ag-head weld counts

Three code paths compute the Ag-head (array-level) weld breakdown:
`src/pages/cost_summary.py` lines 488-499, `src/pages/cost_weld_heads.py`
lines 107-123, and `src/pages/home.py` lines 193-201.
-/

/-- The four Ag-head weld counts each breakdown reports. -/
structure AgWeldBreakdown where
  top_tab_welds : ℤ
  negative_end_welds : ℤ
  positive_end_welds : ℤ
  bypass_diode_welds : ℤ
deriving DecidableEq

/-- Ag-head weld counts as the Cost Summary page computes them
(`src/pages/cost_summary.py` lines 488-499). -/
def ag_welds_cost_summary (num_cells : ℤ) : AgWeldBreakdown :=
  { top_tab_welds := 2 * (num_cells - 1) * 4
    negative_end_welds := 8
    positive_end_welds := 4
    bypass_diode_welds := num_cells * 4 }

/-- Ag-head weld counts as the Weld Heads page computes them
(`src/pages/cost_weld_heads.py` lines 107-123); note line 119 uses
`cells * 2` for the bypass-diode attach welds. -/
def ag_welds_weld_heads_page (cells : ℤ) : AgWeldBreakdown :=
  { top_tab_welds := 2 * (cells - 1) * 4
    negative_end_welds := 8
    positive_end_welds := 4
    bypass_diode_welds := cells * 2 }

/-- Ag-head weld counts as the Home page scenario material-requirements
table computes them (`src/pages/home.py` lines 193-201). -/
def ag_welds_home_scenario (num_cells : ℤ) : AgWeldBreakdown :=
  { top_tab_welds := 2 * (num_cells - 1) * 4
    negative_end_welds := 8
    positive_end_welds := 4
    bypass_diode_welds := num_cells * 4 }

/-!
## Unit-cost resolvers

Each resolver reads a materials-catalog record (a YAML-loaded dict) and
returns a GBP unit cost. Records are modelled as structures whose
fields are `Option`-wrapped: `Option.none` is a missing key.
-/

/-- A silver-ribbon catalog record, the fields `get_silver_cost_per_mm`
reads. -/
structure SilverItem where
  price_per_g : Option PyVal := Option.none
  price_currency : Option (Option String) := Option.none
  width_mm : Option PyVal := Option.none
  thickness_mm : Option PyVal := Option.none
  density_g_cm3 : Option PyVal := Option.none
deriving DecidableEq

/-- `get_silver_cost_per_mm` (`src/pages/cost_silver.py` lines 6-32;
the variant with `override_width_mm` is `src/pages/cost_summary.py`
lines 16-43 and `src/pages/cost_diodes.py` lines 15-57; passing
`Option.none` for the override gives the cost_silver.py version).
Any failing `float()` conversion is caught and yields 0.0; a
non-positive width, thickness or density yields 0.0. -/
def get_silver_cost_per_mm (item : SilverItem) (exchange_rate : ℚ)
    (override_width_mm : Option ℚ) : ℚ :=
  match getFloat item.price_per_g 0,
      (match override_width_mm with
       | Option.some w => Option.some w
       | Option.none => getFloat item.width_mm 0),
      getFloat item.thickness_mm 0,
      getFloat item.density_g_cm3 0 with
  | Option.some price_per_g, Option.some width_mm,
      Option.some thickness_mm, Option.some density =>
    if width_mm ≤ 0 ∨ thickness_mm ≤ 0 ∨ density ≤ 0 then 0
    else
      let price_gbp :=
        if currencyOf item.price_currency "USD" = "USD" then
          price_per_g * exchange_rate
        else price_per_g
      width_mm / 10 * (thickness_mm / 10) * (1 / 10) * density * price_gbp
  | _, _, _, _ => 0

/-- A diode catalog record, the fields `get_diode_price_gbp` reads. -/
structure DiodeItem where
  currency : Option (Option String) := Option.none
  unit_cost_usd : Option PyVal := Option.none
  unit_cost_gbp : Option PyVal := Option.none
deriving DecidableEq

/-- `get_diode_price_gbp` (`src/pages/cost_diodes.py` lines 60-76,
identical copy at `src/pages/cost_summary.py` lines 46-61): unit price
in GBP; a missing, null or non-numeric cost field yields 0.0. -/
def get_diode_price_gbp (item : DiodeItem) (exchange_rate : ℚ) : ℚ :=
  if currencyOf item.currency "USD" = "USD" then
    match item.unit_cost_usd with
    | Option.none => 0
    | Option.some PyVal.null => 0
    | Option.some v =>
      match pyFloat v with
      | Option.some q => q * exchange_rate
      | Option.none => 0
  else
    match item.unit_cost_gbp with
    | Option.none => 0
    | Option.some PyVal.null => 0
    | Option.some v =>
      match pyFloat v with
      | Option.some q => q
      | Option.none => 0

/-- A weld-head catalog record, the fields the three copies of
`get_weld_cost_per_weld` read. -/
structure WeldItem where
  currency : Option (Option String) := Option.none
  num_welds : Option PyVal := Option.none
  unit_cost_usd : Option PyVal := Option.none
  unit_cost_gbp : Option PyVal := Option.none
deriving DecidableEq

/-- `get_weld_cost_per_weld` as the Diodes page defines it
(`src/pages/cost_diodes.py` lines 79-110): currency defaults to "USD",
every `float()` conversion is inside a try/except returning 0.0. -/
def get_weld_cost_per_weld_diodes_page (item : WeldItem) (exchange_rate : ℚ) : ℚ :=
  let currency := currencyOf item.currency "USD"
  match getFloat item.num_welds 0 with
  | Option.none => 0
  | Option.some num_welds =>
    if num_welds ≤ 0 then 0
    else if currency = "USD" then
      match item.unit_cost_usd with
      | Option.none => 0
      | Option.some PyVal.null => 0
      | Option.some v =>
        match pyFloat v with
        | Option.some q => q * exchange_rate / num_welds
        | Option.none => 0
    else
      match item.unit_cost_gbp with
      | Option.none => 0
      | Option.some PyVal.null => 0
      | Option.some v =>
        match pyFloat v with
        | Option.some q => q / num_welds
        | Option.none => 0

/-- `get_weld_cost_per_weld` as the Cost Summary page defines it
(`src/pages/cost_summary.py` lines 64-89): same structure as the
Diodes-page copy, but the currency default is "GBP". -/
def get_weld_cost_per_weld_summary_page (item : WeldItem) (exchange_rate : ℚ) : ℚ :=
  let currency := currencyOf item.currency "GBP"
  match getFloat item.num_welds 0 with
  | Option.none => 0
  | Option.some num_welds =>
    if num_welds ≤ 0 then 0
    else if currency = "USD" then
      match item.unit_cost_usd with
      | Option.none => 0
      | Option.some PyVal.null => 0
      | Option.some v =>
        match pyFloat v with
        | Option.some q => q * exchange_rate / num_welds
        | Option.none => 0
    else
      match item.unit_cost_gbp with
      | Option.none => 0
      | Option.some PyVal.null => 0
      | Option.some v =>
        match pyFloat v with
        | Option.some q => q / num_welds
        | Option.none => 0

/-- `get_weld_cost_per_weld` as the Weld Heads page defines it
(`src/pages/cost_weld_heads.py` lines 14-38): currency defaults to
"USD"; only the reads of `currency` and `num_welds` sit inside the
try/except, so `float(unit_cost_usd)` on a non-numeric value and
`float(weld_item.get("unit_cost_gbp", 0))` on a null or non-numeric
value raise out of the function (modelled as `Except.error`). -/
def get_weld_cost_per_weld_weld_heads_page (item : WeldItem) (exchange_rate : ℚ) :
    Except Unit ℚ :=
  let currency := currencyOf item.currency "USD"
  match getFloat item.num_welds 0 with
  | Option.none => Except.ok 0
  | Option.some num_welds =>
    if num_welds ≤ 0 then Except.ok 0
    else if currency = "USD" then
      match item.unit_cost_usd with
      | Option.none => Except.ok 0
      | Option.some PyVal.null => Except.ok 0
      | Option.some v =>
        match pyFloat v with
        | Option.some q => Except.ok (q * exchange_rate / num_welds)
        | Option.none => Except.error ()
    else
      match getFloat item.unit_cost_gbp 0 with
      | Option.some q => Except.ok (q / num_welds)
      | Option.none => Except.error ()

/-!
## Diode cost model

From `src/pages/cost_summary.py` lines 426-447 (bypass diodes) and
`src/pages/cost_diodes.py` lines 288-309 (same formulas on the Diodes
page).
-/

/-- The effective-cost-after-yield step used for bypass and blocking
diodes (`src/pages/cost_summary.py` lines 446 and 472,
`src/pages/cost_diodes.py` lines 304-307 and 408-411):
`raw / y` when `y > 0`, else `0.0`. -/
def effective_cost_after_yield (raw_cost yield_fraction : ℚ) : ℚ :=
  if 0 < yield_fraction then raw_cost / yield_fraction else 0

/-- The bypass-diode cost figures one array requires. -/
structure BypassDiodeCost where
  silver_cost : ℚ
  raw_cost : ℚ
  effective_cost : ℚ
  total_cost : ℚ
deriving DecidableEq

/-- The bypass-diode calculation (`src/pages/cost_summary.py` lines
426-447, identically `src/pages/cost_diodes.py` lines 288-309): two
silver tabs per diode, one Al and one Au weld per diode, raw cost
divided by the yield fraction, one bypass diode per cell. -/
def bypass_diode_cost (diode_price silver_cost_per_mm tab_length_mm
    cost_per_weld_al cost_per_weld_au yield_fraction : ℚ) (num_cells : ℤ) :
    BypassDiodeCost :=
  let total_tab_len_mm := 2 * tab_length_mm
  let silver_cost := silver_cost_per_mm * total_tab_len_mm
  let weld_cost := cost_per_weld_al + cost_per_weld_au
  let raw_cost := diode_price + silver_cost + weld_cost
  let eff_cost := effective_cost_after_yield raw_cost yield_fraction
  { silver_cost := silver_cost
    raw_cost := raw_cost
    effective_cost := eff_cost
    total_cost := eff_cost * (num_cells : ℚ) }

/-!
## Labour model

From `src/labour_model.py`, `calculate_labour` (lines 149-257).
-/

/-- One process step as `calculate_labour` reads it, after
`load_process_steps` has filled in the schema defaults. The
`operators` list holds each slot's `operator_id` (`Option.none` for an
unassigned slot). -/
structure ProcessStep where
  id : String := ""
  name : String := ""
  timing_basis : String := "per_array"
  quantity_source : String := "array"
  time_per_unit_s : ℚ := 0
  setup_time_s_per_array : ℚ := 0
  yield_fraction : ℚ := 1
  operators : List (Option String) := []
  notes : String := ""
deriving DecidableEq

/-- The per-step result record (`src/labour_model.py` lines 25-38);
`assigned_rates` keeps the hourly rates of the resolved operator
profiles. -/
structure LabourStepResult where
  id : String
  name : String
  timing_basis : String
  quantity_source : String
  units_per_array : ℚ
  time_per_unit_s : ℚ
  setup_time_s_per_array : ℚ
  total_step_seconds : ℚ
  operator_hours : ℚ
  cost : ℚ
  assigned_rates : List ℚ
  notes : String
deriving DecidableEq

/-- What `calculate_labour` returns. -/
structure LabourCalcResult where
  steps : List LabourStepResult
  total_cost : ℚ
  total_hours : ℚ
deriving DecidableEq

/-- The `qty_map` lookup of `calculate_labour`
(`src/labour_model.py` lines 183-189 with the `.get(..., 0.0)` at
line 212): an unknown quantity source maps to 0. -/
def qtyFor (cells_per_array strings_per_array bypass_diodes blocking_diodes : ℚ)
    (source : String) : ℚ :=
  if source = "array" then 1
  else if source = "cells" then cells_per_array
  else if source = "strings" then strings_per_array
  else if source = "bypass_diodes" then bypass_diodes
  else if source = "blocking_diodes" then blocking_diodes
  else 0

/-- Operator-profile lookup: the hourly rate of `oid` in the profiles
table, when present (`oid in operator_profiles`). -/
def lookupRate : List (String × ℚ) → String → Option ℚ
  | [], _ => Option.none
  | (pid, rate) :: rest, oid => if pid = oid then Option.some rate else lookupRate rest oid

/-- The rates of the operators a step resolves
(`src/labour_model.py` lines 225-229): a slot contributes only when
its `operator_id` is truthy (non-empty) and found in the profiles. -/
def assignedRates (profiles : List (String × ℚ)) (ops : List (Option String)) : List ℚ :=
  ops.filterMap (fun o =>
    match o with
    | Option.none => Option.none
    | Option.some oid => if oid = "" then Option.none else lookupRate profiles oid)

/-- Total seconds for one step (`src/labour_model.py` lines 196-220):
the yield fraction is clamped to 1 when non-positive; `per_array`
steps take `time + setup`; `per_unit` steps take
`(quantity / yield) * time + setup`; any other basis is skipped. -/
def stepTotalSeconds (cells_per_array strings_per_array bypass_diodes blocking_diodes : ℚ)
    (step : ProcessStep) : ℚ :=
  let y := if step.yield_fraction ≤ 0 then 1 else step.yield_fraction
  let basis := strLower step.timing_basis
  if basis = "per_array" then step.time_per_unit_s + step.setup_time_s_per_array
  else if basis = "per_unit" then
    qtyFor cells_per_array strings_per_array bypass_diodes blocking_diodes
        step.quantity_source / y * step.time_per_unit_s
      + step.setup_time_s_per_array
  else 0

/-- The `units_per_array` a step reports (`src/labour_model.py` lines
204-220). -/
def stepUnitsPerArray (cells_per_array strings_per_array bypass_diodes blocking_diodes : ℚ)
    (step : ProcessStep) : ℚ :=
  let basis := strLower step.timing_basis
  if basis = "per_array" then 1
  else if basis = "per_unit" then
    qtyFor cells_per_array strings_per_array bypass_diodes blocking_diodes
      step.quantity_source
  else 0

/-- One loop iteration of `calculate_labour`
(`src/labour_model.py` lines 195-251): seconds, hours, resolved
operator rates and the step cost `sum(rate * hours)`. -/
def stepResult (profiles : List (String × ℚ))
    (cells_per_array strings_per_array bypass_diodes blocking_diodes : ℚ)
    (step : ProcessStep) : LabourStepResult :=
  let secs := stepTotalSeconds cells_per_array strings_per_array
    bypass_diodes blocking_diodes step
  let hours := secs / 3600
  let rates := assignedRates profiles step.operators
  { id := step.id
    name := step.name
    timing_basis := strLower step.timing_basis
    quantity_source := step.quantity_source
    units_per_array := stepUnitsPerArray cells_per_array strings_per_array
      bypass_diodes blocking_diodes step
    time_per_unit_s := step.time_per_unit_s
    setup_time_s_per_array := step.setup_time_s_per_array
    total_step_seconds := secs
    operator_hours := hours
    cost := (rates.map (fun r => r * hours)).sum
    assigned_rates := rates
    notes := step.notes }

/-- `calculate_labour` (`src/labour_model.py` lines 149-257):
`cells_per_array = cells_per_string * strings_per_array`, one result
per step, total cost and hours accumulated over the steps. -/
def calculate_labour (process_steps : List ProcessStep)
    (operator_profiles : List (String × ℚ))
    (cells_per_string strings_per_array : ℤ)
    (bypass_diodes_per_array blocking_diodes_per_array : ℤ) : LabourCalcResult :=
  let cells_per_array : ℤ := cells_per_string * strings_per_array
  let results := process_steps.map (stepResult operator_profiles
    (cells_per_array : ℚ) (strings_per_array : ℚ)
    (bypass_diodes_per_array : ℚ) (blocking_diodes_per_array : ℚ))
  { steps := results
    total_cost := (results.map (fun r => r.cost)).sum
    total_hours := (results.map (fun r => r.operator_hours)).sum }

/-!
## Power-target scenario

From `src/pages/home.py` lines 858-873.
-/

/-- The three figures the power-requirement scenario reports. -/
structure PowerScenarioResult where
  good_units_required : ℤ
  units_to_build : ℤ
  expected_scrap : ℤ
deriving DecidableEq

/-- The power-target scenario (`src/pages/home.py` lines 858-873):
good arrays required, arrays to build including scrap, and expected
scrap; with non-positive inputs the page leaves the counters at 0. -/
def power_target_scenario (array_power target_power_watts yield_frac : ℚ) :
    PowerScenarioResult :=
  if array_power ≤ 0 ∨ target_power_watts ≤ 0 then
    { good_units_required := 0, units_to_build := 0, expected_scrap := 0 }
  else
    let good := ⌈target_power_watts / array_power⌉
    let build := if 0 < yield_frac then ⌈(good : ℚ) / yield_frac⌉ else good
    { good_units_required := good
      units_to_build := build
      expected_scrap := max (build - good) 0 }

/-!
## Length-, volume- and piece-based resolvers

From `src/pages/cost_summary.py` lines 101-298.
-/

/-- A roll-stock record (lamination film or tape). -/
structure RollItem where
  roll_length_value : Option PyVal := Option.none
  roll_length_unit : Option (Option String) := Option.none
  roll_cost_gbp : Option PyVal := Option.none
  roll_cost_usd : Option PyVal := Option.none
deriving DecidableEq

/-- `get_lamination_cost_per_m` (`src/pages/cost_summary.py` lines
101-132): GBP cost per metre of roll stock; lengths in feet are
converted at 0.3048 m/ft; a null or missing GBP roll cost falls back
to the USD one. -/
def get_lamination_cost_per_m (item : RollItem) (exchange_rate : ℚ) : ℚ :=
  match getFloat item.roll_length_value 0 with
  | Option.none => 0
  | Option.some length_value =>
    if length_value ≤ 0 then 0
    else
      let length_unit := strLower (strOrDefault item.roll_length_unit "m")
      let roll_length_m :=
        if length_unit = "ft" ∨ length_unit = "foot" ∨ length_unit = "feet" then
          length_value * (3048 / 10000)
        else length_value
      match item.roll_cost_gbp with
      | Option.some (PyVal.num q) => q / roll_length_m
      | Option.some (PyVal.str _) => 0
      | _ =>
        match item.roll_cost_usd with
        | Option.some (PyVal.num q) => q * exchange_rate / roll_length_m
        | Option.some (PyVal.str _) => 0
        | _ => 0

/-- `get_tape_cost_per_m` (`src/pages/cost_summary.py` lines 135-166):
a line-for-line copy of `get_lamination_cost_per_m`. -/
def get_tape_cost_per_m (item : RollItem) (exchange_rate : ℚ) : ℚ :=
  match getFloat item.roll_length_value 0 with
  | Option.none => 0
  | Option.some length_value =>
    if length_value ≤ 0 then 0
    else
      let length_unit := strLower (strOrDefault item.roll_length_unit "m")
      let roll_length_m :=
        if length_unit = "ft" ∨ length_unit = "foot" ∨ length_unit = "feet" then
          length_value * (3048 / 10000)
        else length_value
      match item.roll_cost_gbp with
      | Option.some (PyVal.num q) => q / roll_length_m
      | Option.some (PyVal.str _) => 0
      | _ =>
        match item.roll_cost_usd with
        | Option.some (PyVal.num q) => q * exchange_rate / roll_length_m
        | Option.some (PyVal.str _) => 0
        | _ => 0

/-- A kapton-insulation record. -/
structure KaptonItem where
  cost_per_disk_gbp : Option PyVal := Option.none
  disks_per_roll : Option PyVal := Option.none
  total_cost_gbp : Option PyVal := Option.none
  roll_cost_usd : Option PyVal := Option.none
  currency : Option (Option String) := Option.none
deriving DecidableEq

/-- `get_kapton_cost_per_disk` (`src/pages/cost_summary.py` lines
169-206): a numeric `cost_per_disk_gbp` wins outright; otherwise the
roll cost is divided by a truthy, positive `disks_per_roll`. -/
def get_kapton_cost_per_disk (item : KaptonItem) (exchange_rate : ℚ) : ℚ :=
  match item.cost_per_disk_gbp with
  | Option.some (PyVal.num q) => q
  | _ =>
    match item.disks_per_roll with
    | Option.none => 0
    | Option.some v =>
      if pyTruthy v = false then 0
      else
        match pyFloat v with
        | Option.none => 0
        | Option.some disks =>
          if disks ≤ 0 then 0
          else
            match item.total_cost_gbp with
            | Option.some (PyVal.num q) => q / disks
            | Option.some (PyVal.str _) => 0
            | _ =>
              let currency := currencyOf item.currency "USD"
              match item.roll_cost_usd with
              | Option.some (PyVal.num q) =>
                if currency = "USD" then q * exchange_rate / disks else 0
              | _ => 0

/-- An epoxy record. -/
structure EpoxyItem where
  cost_per_ml_gbp : Option PyVal := Option.none
  volume_ml : Option PyVal := Option.none
  total_cost_gbp : Option PyVal := Option.none
  total_cost_usd : Option PyVal := Option.none
  currency : Option (Option String) := Option.none
deriving DecidableEq

/-- `get_epoxy_cost_per_ml` (`src/pages/cost_summary.py` lines
209-246): same shape as the kapton resolver, against `volume_ml`, with
the currency defaulting to "GBP". -/
def get_epoxy_cost_per_ml (item : EpoxyItem) (exchange_rate : ℚ) : ℚ :=
  match item.cost_per_ml_gbp with
  | Option.some (PyVal.num q) => q
  | _ =>
    match item.volume_ml with
    | Option.none => 0
    | Option.some v =>
      if pyTruthy v = false then 0
      else
        match pyFloat v with
        | Option.none => 0
        | Option.some volume_ml =>
          if volume_ml ≤ 0 then 0
          else
            match item.total_cost_gbp with
            | Option.some (PyVal.num q) => q / volume_ml
            | Option.some (PyVal.str _) => 0
            | _ =>
              let currency := currencyOf item.currency "GBP"
              match item.total_cost_usd with
              | Option.some (PyVal.num q) =>
                if currency = "USD" then q * exchange_rate / volume_ml else 0
              | _ => 0

/-- A generic priced record (frame, shipping board, box). -/
structure UnitCostItem where
  currency : Option (Option String) := Option.none
  unit_cost_gbp : Option PyVal := Option.none
  unit_cost_usd : Option PyVal := Option.none
deriving DecidableEq

/-- `get_unit_cost_gbp` (`src/pages/cost_summary.py` lines 249-265):
a present, non-null `unit_cost_gbp` wins (0.0 when non-numeric);
otherwise `unit_cost_usd` converts when the currency is "USD". -/
def get_unit_cost_gbp (item : UnitCostItem) (exchange_rate : ℚ) : ℚ :=
  let currency := currencyOf item.currency "GBP"
  match item.unit_cost_gbp with
  | Option.some (PyVal.num q) => q
  | Option.some (PyVal.str _) => 0
  | _ =>
    match item.unit_cost_usd with
    | Option.some (PyVal.num q) => if currency = "USD" then q * exchange_rate else 0
    | Option.some (PyVal.str _) => 0
    | _ => 0

/-- A foam record. -/
structure FoamItem where
  num_pieces : Option PyVal := Option.none
  currency : Option (Option String) := Option.none
  total_cost_gbp : Option PyVal := Option.none
  total_cost_usd : Option PyVal := Option.none
deriving DecidableEq

/-- `get_foam_cost_per_piece` (`src/pages/cost_summary.py` lines
268-298): total cost divided by a truthy, positive `num_pieces`. -/
def get_foam_cost_per_piece (item : FoamItem) (exchange_rate : ℚ) : ℚ :=
  match item.num_pieces with
  | Option.none => 0
  | Option.some v =>
    if pyTruthy v = false then 0
    else
      match pyFloat v with
      | Option.none => 0
      | Option.some num_pieces =>
        if num_pieces ≤ 0 then 0
        else
          let currency := currencyOf item.currency "GBP"
          match item.total_cost_gbp with
          | Option.some (PyVal.num q) => q / num_pieces
          | Option.some (PyVal.str _) => 0
          | _ =>
            match item.total_cost_usd with
            | Option.some (PyVal.num q) =>
              if currency = "USD" then q * exchange_rate / num_pieces else 0
            | _ => 0

/-!
## Packaging category

From `src/pages/cost_packaging.py` lines 106-159 (the standalone page,
which reports configuration errors) and `src/pages/cost_summary.py`
lines 621-682 (the summary block, which leaves the category at 0.0).
-/

/-- A packaging catalog record: the `type` tag, foam thickness, and
the priced fields both `get_unit_cost_gbp` and
`get_foam_cost_per_piece` read. -/
structure PackItem where
  ty : Option (Option String) := Option.none
  thickness_mm : Option PyVal := Option.none
  currency : Option (Option String) := Option.none
  unit_cost_gbp : Option PyVal := Option.none
  unit_cost_usd : Option PyVal := Option.none
  total_cost_gbp : Option PyVal := Option.none
  total_cost_usd : Option PyVal := Option.none
  num_pieces : Option PyVal := Option.none
deriving DecidableEq

/-- Semantics of Python `str(record.get(key, ""))` for a string field:
`str(None)` is the string "None". -/
def pyStrField (field : Option (Option String)) : String :=
  match field with
  | Option.none => ""
  | Option.some Option.none => "None"
  | Option.some (Option.some s) => s

/-- The `type` filter applied to packaging items
(`src/pages/cost_packaging.py` lines 124-127, `src/pages/cost_summary.py`
lines 636-639): `str(it.get("type", "")).lower() == tag`. -/
def packTypeIs (tag : String) (it : PackItem) : Bool :=
  strLower (pyStrField it.ty) = tag

/-- The record a `PackItem` presents to `get_unit_cost_gbp`. -/
def packUnitCostItem (it : PackItem) : UnitCostItem :=
  { currency := it.currency
    unit_cost_gbp := it.unit_cost_gbp
    unit_cost_usd := it.unit_cost_usd }

/-- The record a `PackItem` presents to `get_foam_cost_per_piece`. -/
def packFoamItem (it : PackItem) : FoamItem :=
  { num_pieces := it.num_pieces
    currency := it.currency
    total_cost_gbp := it.total_cost_gbp
    total_cost_usd := it.total_cost_usd }

/-- Foam thickness as both pages read it: `float(f.get("thickness_mm",
0.0))` with any conversion failure giving 0.0. -/
def foamThickness (f : PackItem) : ℚ :=
  match getFloat f.thickness_mm 0 with
  | Option.some q => q
  | Option.none => 0

/-- The foam-classification loop (`src/pages/cost_packaging.py` lines
142-153, `src/pages/cost_summary.py` lines 642-652): scan the foam
items, remembering the last one within 1e-3 of 3 mm and the last one
within 1e-3 of 25 mm. -/
def classify_foams (foams : List PackItem) : Option PackItem × Option PackItem :=
  foams.foldl (fun acc f =>
    let th := foamThickness f
    if |th - 3| < 1 / 1000 then (Option.some f, acc.2)
    else if |th - 25| < 1 / 1000 then (acc.1, Option.some f)
    else acc) (Option.none, Option.none)

/-- The configuration-validation prefix of the standalone Packaging
page (`src/pages/cost_packaging.py` lines 106-159): each absent
required role stops the page with its own distinct `st.error` message;
with every role present the page goes on to compute costs
(`Except.ok`). -/
def cost_packaging_config_check (packaging_items : List PackItem) : Except String Unit :=
  if packaging_items.isEmpty then
    Except.error "No Packaging materials found. Add some under Materials - Packaging."
  else
    let frames := packaging_items.filter (packTypeIs "frame")
    let boards := packaging_items.filter (packTypeIs "shipping board")
    let foams := packaging_items.filter (packTypeIs "foam")
    let boxes := packaging_items.filter (packTypeIs "box")
    if frames.isEmpty then Except.error "No frames found in Packaging (type Frame)."
    else if boards.isEmpty then
      Except.error "No shipping boards found in Packaging (type Shipping board)."
    else if foams.isEmpty then Except.error "No foam items found in Packaging (type Foam)."
    else if boxes.isEmpty then Except.error "No box items found in Packaging (type Box)."
    else
      match classify_foams foams with
      | (Option.some _, Option.some _) => Except.ok ()
      | _ => Except.error "Expected both 3mm and 25mm foam in Packaging."

/-- The packaging block of the Cost Summary page
(`src/pages/cost_summary.py` lines 621-682): when a role is absent the
block silently leaves the category cost at 0.0; otherwise frame and
board cost per array plus the box-and-foam cost shared across
`arrays_per_box`. (Python would raise on `arrays_per_box = 0`; the
session default is 4 and rational division keeps the definition
total.) -/
def summary_packaging_cost (packaging_items : List PackItem)
    (frame_idx board_idx box_idx : ℕ) (arrays_per_box : ℤ)
    (exchange_rate : ℚ) : ℚ :=
  if packaging_items.isEmpty then 0
  else
    let frames := packaging_items.filter (packTypeIs "frame")
    let boards := packaging_items.filter (packTypeIs "shipping board")
    let foams := packaging_items.filter (packTypeIs "foam")
    let boxes := packaging_items.filter (packTypeIs "box")
    if frames.isEmpty ∨ boards.isEmpty ∨ foams.isEmpty ∨ boxes.isEmpty then 0
    else
      match classify_foams foams with
      | (Option.some foam_3mm, Option.some foam_25mm) =>
        let frame_item := frames.getD (min frame_idx (frames.length - 1)) {}
        let board_item := boards.getD (min board_idx (boards.length - 1)) {}
        let box_item := boxes.getD (min box_idx (boxes.length - 1)) {}
        let frame_cost := get_unit_cost_gbp (packUnitCostItem frame_item) exchange_rate
        let board_cost := get_unit_cost_gbp (packUnitCostItem board_item) exchange_rate
        let box_cost := get_unit_cost_gbp (packUnitCostItem box_item) exchange_rate
        let foam_25_cost_box :=
          get_foam_cost_per_piece (packFoamItem foam_25mm) exchange_rate * 2
        let foam_3_cost_box :=
          get_foam_cost_per_piece (packFoamItem foam_3mm) exchange_rate
            * ((max (arrays_per_box - 1) 0 : ℤ) : ℚ)
        let shared_per_box := box_cost + (foam_25_cost_box + foam_3_cost_box)
        frame_cost + board_cost + shared_per_box / (arrays_per_box : ℚ)
      | _ => 0

/-!
## Claims
-/

/-- Claim C4: for every design record and each illumination condition,
`compute_power_for_design` returns `P_cell = (efficiency_percent /
100) * irradiance * 0.002` with irradiance 1000 W/m2 for AM1.5 and
1366 W/m2 for AM0, and `P_array` equals exactly `P_cell * num_cells`. -/
theorem C4_power_formula (num_cells eff_am15_percent eff_am0_percent : ℚ) :
    (compute_power_for_design num_cells eff_am15_percent eff_am0_percent).P_cell_AM15_W
        = eff_am15_percent / 100 * 1000 * (2 / 1000)
    ∧ (compute_power_for_design num_cells eff_am15_percent eff_am0_percent).P_cell_AM0_W
        = eff_am0_percent / 100 * 1366 * (2 / 1000)
    ∧ (compute_power_for_design num_cells eff_am15_percent eff_am0_percent).P_array_AM15_W
        = (compute_power_for_design num_cells eff_am15_percent eff_am0_percent).P_cell_AM15_W
          * num_cells
    ∧ (compute_power_for_design num_cells eff_am15_percent eff_am0_percent).P_array_AM0_W
        = (compute_power_for_design num_cells eff_am15_percent eff_am0_percent).P_cell_AM0_W
          * num_cells := by
  refine ⟨?_, ?_, rfl, rfl⟩ <;>
    · simp only [compute_power_for_design, CELL_AREA_M2, CELL_AREA_CM2,
        IRRADIANCE_AM15, IRRADIANCE_AM0]
      ring

/-- Claim C5, counterexample: the design with `num_cells = 20`,
`cell_height = 6.6`, `gap = 1.0`, `pos_gap = 5.0`, `neg_gap = 5.0`
gives a base length of 161.0 mm (not the claimed 151.0) and a
perimeter of 462.0 mm (not the claimed 442.0). -/
theorem C5_concrete_lengths_counterexample :
    base_length_mm 20 (33 / 5) 1 5 5 = 161
    ∧ perimeter_length_mm (base_length_mm 20 (33 / 5) 1 5 5) = 462
    ∧ base_length_mm 20 (33 / 5) 1 5 5 ≠ 151
    ∧ perimeter_length_mm (base_length_mm 20 (33 / 5) 1 5 5) ≠ 442 := by
  norm_num [base_length_mm, perimeter_length_mm]

/-- Claim C5 as amended: the base length equals `positive_end_gap +
negative_end_gap + num_cells * cell_height + max(num_cells - 1, 0) *
gap` and the perimeter equals `2 * base + 140` (the 140 mm constant
preserved exactly); the particular design `num_cells = 20,
cell_height = 6.6, gap = 1.0, pos_gap = 5.0, neg_gap = 5.0` gives a
base length of 161.0 mm and a perimeter of 462.0 mm. -/
theorem C5_base_and_perimeter_length :
    (∀ (num_cells : ℤ) (cell_h gap pos_gap neg_gap : ℚ),
      base_length_mm num_cells cell_h gap pos_gap neg_gap
        = pos_gap + neg_gap + (num_cells : ℚ) * cell_h
          + ((max (num_cells - 1) 0 : ℤ) : ℚ) * gap)
    ∧ (∀ base : ℚ, perimeter_length_mm base = 2 * base + 140)
    ∧ base_length_mm 20 (33 / 5) 1 5 5 = 161
    ∧ perimeter_length_mm (base_length_mm 20 (33 / 5) 1 5 5) = 462 := by
  refine ⟨fun n c g p q => ?_, fun _ => rfl, ?_, ?_⟩
  · simp only [base_length_mm]; ring
  · norm_num [base_length_mm]
  · norm_num [base_length_mm, perimeter_length_mm]

/-- Claim C1, counterexample: at `num_cells = 20` the Weld Heads page
(`src/pages/cost_weld_heads.py` line 119) reports 40 bypass-diode
attach welds, not the `num_cells * 4 = 80` the claim states for every
code path (and which the Cost Summary page does use). -/
theorem C1_bypass_welds_counterexample :
    (ag_welds_weld_heads_page 20).bypass_diode_welds = 40
    ∧ (40 : ℤ) ≠ 20 * 4
    ∧ (ag_welds_cost_summary 20).bypass_diode_welds = 20 * 4 := by
  decide

/-- Claim C1 as amended: for every array design with `num_cells ≥ 1`,
the Cost Summary page and the scenario material-requirements table
agree on the whole Ag-head breakdown (top-tab welds `2*(n-1)*4`,
negative-end 8, positive-end 4, bypass-diode attach `n*4`); the Weld
Heads page agrees on the first three counts but reports `n*2`
bypass-diode attach welds. -/
theorem C1_ag_weld_breakdowns (num_cells : ℤ) (h : 1 ≤ num_cells) :
    ag_welds_cost_summary num_cells = ag_welds_home_scenario num_cells
    ∧ (ag_welds_cost_summary num_cells).top_tab_welds = 2 * (num_cells - 1) * 4
    ∧ (ag_welds_cost_summary num_cells).negative_end_welds = 8
    ∧ (ag_welds_cost_summary num_cells).positive_end_welds = 4
    ∧ (ag_welds_cost_summary num_cells).bypass_diode_welds = num_cells * 4
    ∧ (ag_welds_weld_heads_page num_cells).top_tab_welds
        = (ag_welds_cost_summary num_cells).top_tab_welds
    ∧ (ag_welds_weld_heads_page num_cells).negative_end_welds = 8
    ∧ (ag_welds_weld_heads_page num_cells).positive_end_welds = 4
    ∧ (ag_welds_weld_heads_page num_cells).bypass_diode_welds = num_cells * 2 :=
  ⟨rfl, rfl, rfl, rfl, rfl, rfl, rfl, rfl, rfl⟩

/-- Claim C1 witness: the amended breakdown agreement at
`num_cells = 20`. -/
theorem C1_ag_weld_breakdowns_witness :
    ag_welds_cost_summary 20 = ag_welds_home_scenario 20
    ∧ (ag_welds_cost_summary 20).top_tab_welds = 2 * (20 - 1) * 4
    ∧ (ag_welds_cost_summary 20).negative_end_welds = 8
    ∧ (ag_welds_cost_summary 20).positive_end_welds = 4
    ∧ (ag_welds_cost_summary 20).bypass_diode_welds = 20 * 4
    ∧ (ag_welds_weld_heads_page 20).top_tab_welds
        = (ag_welds_cost_summary 20).top_tab_welds
    ∧ (ag_welds_weld_heads_page 20).negative_end_welds = 8
    ∧ (ag_welds_weld_heads_page 20).positive_end_welds = 4
    ∧ (ag_welds_weld_heads_page 20).bypass_diode_welds = 20 * 2 :=
  C1_ag_weld_breakdowns 20 (by norm_num)

/-- The sum of a list scaled elementwise on the right. -/
theorem sum_map_mul_const (l : List ℚ) (c : ℚ) :
    (l.map (fun x => x * c)).sum = l.sum * c := by
  induction l with
  | nil => simp
  | cons a t ih => simp [ih, add_mul]

/-- Clamping a non-positive yield fraction to 1, as
`src/labour_model.py` lines 200-202 do before dividing. -/
def clampYieldStep (s : ProcessStep) : ProcessStep :=
  if s.yield_fraction ≤ 0 then { s with yield_fraction := 1 } else s

/-- One step computes the same seconds, units and cost whether its
non-positive yield is clamped beforehand or by `calculate_labour`
itself. -/
theorem stepResult_clampYieldStep (profiles : List (String × ℚ))
    (cpa spa bd bl : ℚ) (s : ProcessStep) :
    stepResult profiles cpa spa bd bl (clampYieldStep s)
      = stepResult profiles cpa spa bd bl s := by
  by_cases hs : s.yield_fraction ≤ 0
  · simp [clampYieldStep, hs, stepResult, stepTotalSeconds, stepUnitsPerArray]
  · simp [clampYieldStep, hs]

/-- Claim C2, counterexample: the bypass/blocking effective-cost path
(`src/pages/cost_summary.py` line 446, `src/pages/cost_diodes.py`
lines 304-307) does not clamp a non-positive yield to 1.0: with a raw
cost of 1, yield 0 produces 0 while yield 1 produces 1, so yield 0 is
not the same output as yield 1 on that path. -/
theorem C2_yield_zero_counterexample :
    effective_cost_after_yield 1 0 = 0
    ∧ effective_cost_after_yield 1 1 = 1
    ∧ effective_cost_after_yield 1 0 ≠ effective_cost_after_yield 1 1 := by
  norm_num [effective_cost_after_yield]

/-- Claim C2 as amended: the labour aggregation replaces a
non-positive `yield_fraction` by 1.0 before use (so `calculate_labour`
is unchanged by pre-clamping, and yield 0 behaves exactly as yield 1
there), and no path divides by zero; but the bypass- and
blocking-diode effective-cost computation instead returns 0.0 whenever
the yield fraction is non-positive (for yield 1 it returns the raw
cost unchanged). -/
theorem C2_yield_fraction_handling :
    (∀ (steps : List ProcessStep) (profiles : List (String × ℚ))
        (cells_per_string strings_per_array bypass blocking : ℤ),
      calculate_labour (steps.map clampYieldStep) profiles
          cells_per_string strings_per_array bypass blocking
        = calculate_labour steps profiles
            cells_per_string strings_per_array bypass blocking)
    ∧ (∀ raw_cost y : ℚ, y ≤ 0 → effective_cost_after_yield raw_cost y = 0)
    ∧ (∀ raw_cost : ℚ, effective_cost_after_yield raw_cost 1 = raw_cost) := by
  refine ⟨fun steps profiles cps spa bd bl => ?_, fun raw y hy => ?_, fun raw => ?_⟩
  · simp [calculate_labour, List.map_map, Function.comp_def,
      stepResult_clampYieldStep]
  · simp [effective_cost_after_yield, not_lt.mpr hy]
  · norm_num [effective_cost_after_yield]

/-- Claim C6: for every design with `num_cells ≥ 1` and yield fraction
`0 < y ≤ 1`, the bypass-diode calculator computes `silver_cost = 2 *
tab_length * silver_cost_per_mm`, `effective_cost = (diode_price +
silver_cost + one Al weld + one Au weld) / y`, and total bypass cost
`effective_cost * num_cells`; in particular `diode_price = 0.10`,
`tab_length = 5`, silver cost/mm `0.00005`, welds `0.001` each, yield
80 percent and `num_cells = 20` give a total of 2.5625. -/
theorem C6_bypass_diode_cost (diode_price silver_per_mm tab_len weld_al weld_au y : ℚ)
    (num_cells : ℤ) (hy : 0 < y) (hy1 : y ≤ 1) (hn : 1 ≤ num_cells) :
    (bypass_diode_cost diode_price silver_per_mm tab_len weld_al weld_au y
        num_cells).silver_cost = 2 * tab_len * silver_per_mm
    ∧ (bypass_diode_cost diode_price silver_per_mm tab_len weld_al weld_au y
        num_cells).effective_cost
      = (diode_price + 2 * tab_len * silver_per_mm + (weld_al + weld_au)) / y
    ∧ (bypass_diode_cost diode_price silver_per_mm tab_len weld_al weld_au y
        num_cells).total_cost
      = (bypass_diode_cost diode_price silver_per_mm tab_len weld_al weld_au y
          num_cells).effective_cost * (num_cells : ℚ)
    ∧ (bypass_diode_cost (1 / 10) (1 / 20000) 5 (1 / 1000) (1 / 1000) (4 / 5)
        20).total_cost = 41 / 16 := by
  refine ⟨?_, ?_, rfl, ?_⟩
  · simp only [bypass_diode_cost]; ring
  · simp only [bypass_diode_cost, effective_cost_after_yield, if_pos hy]; ring
  · norm_num [bypass_diode_cost, effective_cost_after_yield]

/-- Claim C6 witness: the bypass-diode relations at the concrete
worked example of the claim. -/
theorem C6_bypass_diode_cost_witness :
    (bypass_diode_cost (1 / 10) (1 / 20000) 5 (1 / 1000) (1 / 1000) (4 / 5)
        20).silver_cost = 2 * 5 * (1 / 20000)
    ∧ (bypass_diode_cost (1 / 10) (1 / 20000) 5 (1 / 1000) (1 / 1000) (4 / 5)
        20).effective_cost
      = (1 / 10 + 2 * 5 * (1 / 20000) + (1 / 1000 + 1 / 1000)) / (4 / 5)
    ∧ (bypass_diode_cost (1 / 10) (1 / 20000) 5 (1 / 1000) (1 / 1000) (4 / 5)
        20).total_cost
      = (bypass_diode_cost (1 / 10) (1 / 20000) 5 (1 / 1000) (1 / 1000) (4 / 5)
          20).effective_cost * ((20 : ℤ) : ℚ)
    ∧ (bypass_diode_cost (1 / 10) (1 / 20000) 5 (1 / 1000) (1 / 1000) (4 / 5)
        20).total_cost = 41 / 16 :=
  C6_bypass_diode_cost (1 / 10) (1 / 20000) 5 (1 / 1000) (1 / 1000) (4 / 5) 20
    (by norm_num) (by norm_num) (by norm_num)

/-- Claim C7: for positive array power and target and yield `0 < y ≤
1`, the power-target scenario returns `good = ceil(target / power)`,
`build = ceil(good / y)` and `scrap = max(build - good, 0)`; in
particular power 50 W, target 1000 W and yield 0.9 give 20, 23 and 3. -/
theorem C7_power_target_scenario (array_power target_power_watts yield_frac : ℚ)
    (hp : 0 < array_power) (ht : 0 < target_power_watts)
    (hy : 0 < yield_frac) (hy1 : yield_frac ≤ 1) :
    (power_target_scenario array_power target_power_watts yield_frac).good_units_required
        = ⌈target_power_watts / array_power⌉
    ∧ (power_target_scenario array_power target_power_watts yield_frac).units_to_build
        = ⌈((⌈target_power_watts / array_power⌉ : ℤ) : ℚ) / yield_frac⌉
    ∧ (power_target_scenario array_power target_power_watts yield_frac).expected_scrap
        = max (⌈((⌈target_power_watts / array_power⌉ : ℤ) : ℚ) / yield_frac⌉
            - ⌈target_power_watts / array_power⌉) 0
    ∧ power_target_scenario 50 1000 (9 / 10)
        = { good_units_required := 20, units_to_build := 23, expected_scrap := 3 } := by
  have hcond : ¬(array_power ≤ 0 ∨ target_power_watts ≤ 0) := by
    push_neg
    exact ⟨hp, ht⟩
  have hgood : (⌈(1000 : ℚ) / 50⌉ : ℤ) = 20 := by norm_num
  have hbuild : (⌈((20 : ℤ) : ℚ) / (9 / 10)⌉ : ℤ) = 23 := by
    rw [Int.ceil_eq_iff]
    constructor <;> norm_num
  refine ⟨?_, ?_, ?_, ?_⟩
  · simp [power_target_scenario, hcond]
  · simp [power_target_scenario, hcond, hy]
  · simp [power_target_scenario, hcond, hy]
  · simp only [power_target_scenario]
    rw [if_neg (by norm_num), if_pos (by norm_num), hgood, hbuild]
    norm_num

/-- Claim C7 witness: the scenario relations at power 50 W, target
1000 W, yield 0.9. -/
theorem C7_power_target_scenario_witness :
    (power_target_scenario 50 1000 (9 / 10)).good_units_required
        = ⌈(1000 : ℚ) / 50⌉
    ∧ (power_target_scenario 50 1000 (9 / 10)).units_to_build
        = ⌈((⌈(1000 : ℚ) / 50⌉ : ℤ) : ℚ) / (9 / 10)⌉
    ∧ (power_target_scenario 50 1000 (9 / 10)).expected_scrap
        = max (⌈((⌈(1000 : ℚ) / 50⌉ : ℤ) : ℚ) / (9 / 10)⌉ - ⌈(1000 : ℚ) / 50⌉) 0
    ∧ power_target_scenario 50 1000 (9 / 10)
        = { good_units_required := 20, units_to_build := 23, expected_scrap := 3 } :=
  C7_power_target_scenario 50 1000 (9 / 10) (by norm_num) (by norm_num)
    (by norm_num) (by norm_num)

/-- The per-step cost of `calculate_labour` in closed form:
`sum(rate * hours)` equals seconds over 3600 times the sum of the
assigned rates. -/
theorem stepResult_cost_closed (profiles : List (String × ℚ))
    (cpa spa bd bl : ℚ) (s : ProcessStep) :
    (stepResult profiles cpa spa bd bl s).cost
      = stepTotalSeconds cpa spa bd bl s / 3600
          * (assignedRates profiles s.operators).sum := by
  simp only [stepResult, sum_map_mul_const]
  ring

/-- Claim C8: for every list of process steps, the whole-process
labour aggregation gives each `per_unit` step `(quantity / yield) *
time + setup` seconds with the quantity drawn from its quantity
source, each `per_array` step `time + setup` seconds, zero for any
other basis (skip, not an error); total hours and total cost are the
sums over steps, each step costing `seconds / 3600` times the sum of
the assigned operators' hourly rates. -/
theorem C8_calculate_labour (steps : List ProcessStep)
    (profiles : List (String × ℚ))
    (cells_per_string strings_per_array bypass blocking : ℤ) :
    (calculate_labour steps profiles cells_per_string strings_per_array
          bypass blocking).total_hours
        = (steps.map (fun s =>
            stepTotalSeconds ((cells_per_string * strings_per_array : ℤ) : ℚ)
              (strings_per_array : ℚ) (bypass : ℚ) (blocking : ℚ) s / 3600)).sum
    ∧ (calculate_labour steps profiles cells_per_string strings_per_array
          bypass blocking).total_cost
        = (steps.map (fun s =>
            stepTotalSeconds ((cells_per_string * strings_per_array : ℤ) : ℚ)
              (strings_per_array : ℚ) (bypass : ℚ) (blocking : ℚ) s / 3600
            * (assignedRates profiles s.operators).sum)).sum
    ∧ ∀ s ∈ steps,
        (strLower s.timing_basis = "per_array" →
          stepTotalSeconds ((cells_per_string * strings_per_array : ℤ) : ℚ)
              (strings_per_array : ℚ) (bypass : ℚ) (blocking : ℚ) s
            = s.time_per_unit_s + s.setup_time_s_per_array)
        ∧ (strLower s.timing_basis = "per_unit" → 0 < s.yield_fraction →
            (s.quantity_source = "array" →
              stepTotalSeconds ((cells_per_string * strings_per_array : ℤ) : ℚ)
                  (strings_per_array : ℚ) (bypass : ℚ) (blocking : ℚ) s
                = 1 / s.yield_fraction * s.time_per_unit_s
                  + s.setup_time_s_per_array)
            ∧ (s.quantity_source = "cells" →
              stepTotalSeconds ((cells_per_string * strings_per_array : ℤ) : ℚ)
                  (strings_per_array : ℚ) (bypass : ℚ) (blocking : ℚ) s
                = ((cells_per_string * strings_per_array : ℤ) : ℚ)
                    / s.yield_fraction * s.time_per_unit_s
                  + s.setup_time_s_per_array)
            ∧ (s.quantity_source = "strings" →
              stepTotalSeconds ((cells_per_string * strings_per_array : ℤ) : ℚ)
                  (strings_per_array : ℚ) (bypass : ℚ) (blocking : ℚ) s
                = (strings_per_array : ℚ) / s.yield_fraction * s.time_per_unit_s
                  + s.setup_time_s_per_array)
            ∧ (s.quantity_source = "bypass_diodes" →
              stepTotalSeconds ((cells_per_string * strings_per_array : ℤ) : ℚ)
                  (strings_per_array : ℚ) (bypass : ℚ) (blocking : ℚ) s
                = (bypass : ℚ) / s.yield_fraction * s.time_per_unit_s
                  + s.setup_time_s_per_array)
            ∧ (s.quantity_source = "blocking_diodes" →
              stepTotalSeconds ((cells_per_string * strings_per_array : ℤ) : ℚ)
                  (strings_per_array : ℚ) (bypass : ℚ) (blocking : ℚ) s
                = (blocking : ℚ) / s.yield_fraction * s.time_per_unit_s
                  + s.setup_time_s_per_array))
        ∧ (strLower s.timing_basis ≠ "per_array" →
            strLower s.timing_basis ≠ "per_unit" →
          stepTotalSeconds ((cells_per_string * strings_per_array : ℤ) : ℚ)
              (strings_per_array : ℚ) (bypass : ℚ) (blocking : ℚ) s = 0)
        ∧ (stepResult profiles ((cells_per_string * strings_per_array : ℤ) : ℚ)
              (strings_per_array : ℚ) (bypass : ℚ) (blocking : ℚ) s).cost
            = stepTotalSeconds ((cells_per_string * strings_per_array : ℤ) : ℚ)
                (strings_per_array : ℚ) (bypass : ℚ) (blocking : ℚ) s / 3600
              * (assignedRates profiles s.operators).sum := by
  refine ⟨?_, ?_, ?_⟩
  · simp [calculate_labour, List.map_map, Function.comp_def, stepResult]
  · simp [calculate_labour, List.map_map, Function.comp_def, stepResult_cost_closed]
  · intro s hs
    have hne : ¬(s.yield_fraction ≤ 0) → (if s.yield_fraction ≤ 0 then (1 : ℚ)
        else s.yield_fraction) = s.yield_fraction := fun h => if_neg h
    refine ⟨fun hb => ?_, fun hb hy => ?_, fun h1 h2 => ?_, stepResult_cost_closed ..⟩
    · simp [stepTotalSeconds, hb]
    · have hyne := hne (not_le.mpr hy)
      refine ⟨fun hq => ?_, fun hq => ?_, fun hq => ?_, fun hq => ?_, fun hq => ?_⟩ <;>
        simp [stepTotalSeconds, hb, hq, qtyFor, hyne]
    · simp [stepTotalSeconds, h1, h2]

/-- A record field that `float()` cannot turn into a number: the key
is missing, the value is YAML null, or it is a non-numeric string. -/
def numFieldBad : Option PyVal → Bool
  | Option.some (PyVal.num _) => false
  | _ => true

set_option maxHeartbeats 3200000

/-- `get_silver_cost_per_mm` returns 0.0 whenever a required numeric
field is missing or non-numeric, or the effective width, thickness or
density is non-positive. -/
theorem get_silver_cost_per_mm_invalid_zero (item : SilverItem) (rate : ℚ)
    (ov : Option ℚ)
    (h : numFieldBad item.price_per_g = true
      ∨ (ov = Option.none ∧ numFieldBad item.width_mm = true)
      ∨ numFieldBad item.thickness_mm = true
      ∨ numFieldBad item.density_g_cm3 = true
      ∨ (∃ v : ℚ, v ≤ 0
          ∧ (ov = Option.some v
            ∨ (ov = Option.none ∧ item.width_mm = Option.some (PyVal.num v))
            ∨ item.thickness_mm = Option.some (PyVal.num v)
            ∨ item.density_g_cm3 = Option.some (PyVal.num v)))) :
    get_silver_cost_per_mm item rate ov = 0 := by
  obtain ⟨p, c, w, t, d⟩ := item
  rcases p with _ | p <;> try rcases p with q1 | s1 | _
  all_goals rcases w with _ | w <;> try rcases w with q2 | s2 | _
  all_goals rcases t with _ | t <;> try rcases t with q3 | s3 | _
  all_goals rcases d with _ | d <;> try rcases d with q4 | s4 | _
  all_goals rcases ov with _ | ow
  all_goals simp_all [get_silver_cost_per_mm, getFloat, pyFloat, numFieldBad]
  all_goals try (split_ifs <;> simp_all)
  all_goals
    intro h1 h2 h3
    obtain ⟨v, hv, hc⟩ := h
    rcases hc with rfl | rfl | rfl <;> linarith

/-- `get_diode_price_gbp` returns 0.0 whenever both cost fields are
missing, null or non-numeric (whichever the currency selects). -/
theorem get_diode_price_gbp_invalid_zero (item : DiodeItem) (rate : ℚ)
    (h1 : numFieldBad item.unit_cost_usd = true)
    (h2 : numFieldBad item.unit_cost_gbp = true) :
    get_diode_price_gbp item rate = 0 := by
  obtain ⟨c, usd, gbp⟩ := item
  rcases usd with _ | u <;> try rcases u with q | s | _
  all_goals rcases gbp with _ | g <;> try rcases g with q2 | s2 | _
  all_goals simp_all [get_diode_price_gbp, pyFloat, numFieldBad]

/-- The Diodes-page weld-cost copy returns 0.0 on a missing,
non-numeric or non-positive `num_welds`, or when both cost fields are
unusable. -/
theorem get_weld_cost_per_weld_diodes_page_invalid_zero (item : WeldItem) (rate : ℚ)
    (h : numFieldBad item.num_welds = true
      ∨ (∃ n : ℚ, item.num_welds = Option.some (PyVal.num n) ∧ n ≤ 0)
      ∨ (numFieldBad item.unit_cost_usd = true
          ∧ numFieldBad item.unit_cost_gbp = true)) :
    get_weld_cost_per_weld_diodes_page item rate = 0 := by
  obtain ⟨c, nw, usd, gbp⟩ := item
  rcases nw with _ | n <;> try rcases n with q | s | _
  all_goals rcases usd with _ | u <;> try rcases u with q2 | s2 | _
  all_goals rcases gbp with _ | g <;> try rcases g with q3 | s3 | _
  all_goals simp_all [get_weld_cost_per_weld_diodes_page, getFloat, pyFloat, numFieldBad]

/-- The Cost-Summary weld-cost copy returns 0.0 in the same invalid
cases as the Diodes-page copy. -/
theorem get_weld_cost_per_weld_summary_page_invalid_zero (item : WeldItem) (rate : ℚ)
    (h : numFieldBad item.num_welds = true
      ∨ (∃ n : ℚ, item.num_welds = Option.some (PyVal.num n) ∧ n ≤ 0)
      ∨ (numFieldBad item.unit_cost_usd = true
          ∧ numFieldBad item.unit_cost_gbp = true)) :
    get_weld_cost_per_weld_summary_page item rate = 0 := by
  obtain ⟨c, nw, usd, gbp⟩ := item
  rcases nw with _ | n <;> try rcases n with q | s | _
  all_goals rcases usd with _ | u <;> try rcases u with q2 | s2 | _
  all_goals rcases gbp with _ | g <;> try rcases g with q3 | s3 | _
  all_goals simp_all [get_weld_cost_per_weld_summary_page, getFloat, pyFloat, numFieldBad]

/-- The Weld-Heads-page weld-cost copy also returns 0.0 on a missing,
non-numeric or non-positive `num_welds` (the cost-field reads can
raise there; see the C10 theorems). -/
theorem get_weld_cost_per_weld_weld_heads_page_invalid_zero (item : WeldItem) (rate : ℚ)
    (h : numFieldBad item.num_welds = true
      ∨ (∃ n : ℚ, item.num_welds = Option.some (PyVal.num n) ∧ n ≤ 0)) :
    get_weld_cost_per_weld_weld_heads_page item rate = Except.ok 0 := by
  obtain ⟨c, nw, usd, gbp⟩ := item
  rcases nw with _ | n <;> try rcases n with q | s | _
  all_goals simp_all [get_weld_cost_per_weld_weld_heads_page, getFloat, pyFloat,
    numFieldBad]

/-- `get_lamination_cost_per_m` returns 0.0 on a missing, non-numeric
or non-positive roll length, or when both roll-cost fields are
unusable. -/
theorem get_lamination_cost_per_m_invalid_zero (item : RollItem) (rate : ℚ)
    (h : numFieldBad item.roll_length_value = true
      ∨ (∃ L : ℚ, item.roll_length_value = Option.some (PyVal.num L) ∧ L ≤ 0)
      ∨ (numFieldBad item.roll_cost_gbp = true
          ∧ numFieldBad item.roll_cost_usd = true)) :
    get_lamination_cost_per_m item rate = 0 := by
  obtain ⟨lv, lu, g, u⟩ := item
  rcases lv with _ | l <;> try rcases l with q | s | _
  all_goals rcases g with _ | g <;> try rcases g with q2 | s2 | _
  all_goals rcases u with _ | u <;> try rcases u with q3 | s3 | _
  all_goals simp_all [get_lamination_cost_per_m, getFloat, pyFloat, numFieldBad]

/-- `get_tape_cost_per_m` returns 0.0 in the same invalid cases as
`get_lamination_cost_per_m`. -/
theorem get_tape_cost_per_m_invalid_zero (item : RollItem) (rate : ℚ)
    (h : numFieldBad item.roll_length_value = true
      ∨ (∃ L : ℚ, item.roll_length_value = Option.some (PyVal.num L) ∧ L ≤ 0)
      ∨ (numFieldBad item.roll_cost_gbp = true
          ∧ numFieldBad item.roll_cost_usd = true)) :
    get_tape_cost_per_m item rate = 0 := by
  obtain ⟨lv, lu, g, u⟩ := item
  rcases lv with _ | l <;> try rcases l with q | s | _
  all_goals rcases g with _ | g <;> try rcases g with q2 | s2 | _
  all_goals rcases u with _ | u <;> try rcases u with q3 | s3 | _
  all_goals simp_all [get_tape_cost_per_m, getFloat, pyFloat, numFieldBad]

/-- `get_kapton_cost_per_disk` returns 0.0 when no numeric
`cost_per_disk_gbp` is present and the disk count is missing,
non-numeric or non-positive, or both roll-cost routes are unusable. -/
theorem get_kapton_cost_per_disk_invalid_zero (item : KaptonItem) (rate : ℚ)
    (h0 : numFieldBad item.cost_per_disk_gbp = true)
    (h : numFieldBad item.disks_per_roll = true
      ∨ (∃ k : ℚ, item.disks_per_roll = Option.some (PyVal.num k) ∧ k ≤ 0)
      ∨ (numFieldBad item.total_cost_gbp = true
          ∧ numFieldBad item.roll_cost_usd = true)) :
    get_kapton_cost_per_disk item rate = 0 := by
  obtain ⟨cpd, dp, tg, ru, c⟩ := item
  rcases cpd with _ | v <;> try rcases v with q | s | _
  all_goals rcases dp with _ | d <;> try rcases d with q1 | s1 | _
  all_goals rcases tg with _ | g <;> try rcases g with q2 | s2 | _
  all_goals rcases ru with _ | u <;> try rcases u with q3 | s3 | _
  all_goals simp_all [get_kapton_cost_per_disk, getFloat, pyFloat, pyTruthy,
    numFieldBad]

/-- `get_epoxy_cost_per_ml` returns 0.0 when no numeric
`cost_per_ml_gbp` is present and the volume is missing, non-numeric or
non-positive, or both total-cost routes are unusable. -/
theorem get_epoxy_cost_per_ml_invalid_zero (item : EpoxyItem) (rate : ℚ)
    (h0 : numFieldBad item.cost_per_ml_gbp = true)
    (h : numFieldBad item.volume_ml = true
      ∨ (∃ k : ℚ, item.volume_ml = Option.some (PyVal.num k) ∧ k ≤ 0)
      ∨ (numFieldBad item.total_cost_gbp = true
          ∧ numFieldBad item.total_cost_usd = true)) :
    get_epoxy_cost_per_ml item rate = 0 := by
  obtain ⟨cpm, vm, tg, tu, c⟩ := item
  rcases cpm with _ | v <;> try rcases v with q | s | _
  all_goals rcases vm with _ | d <;> try rcases d with q1 | s1 | _
  all_goals rcases tg with _ | g <;> try rcases g with q2 | s2 | _
  all_goals rcases tu with _ | u <;> try rcases u with q3 | s3 | _
  all_goals simp_all [get_epoxy_cost_per_ml, getFloat, pyFloat, pyTruthy,
    numFieldBad]

/-- `get_unit_cost_gbp` returns 0.0 when both unit-cost fields are
missing, null or non-numeric. -/
theorem get_unit_cost_gbp_invalid_zero (item : UnitCostItem) (rate : ℚ)
    (h1 : numFieldBad item.unit_cost_gbp = true)
    (h2 : numFieldBad item.unit_cost_usd = true) :
    get_unit_cost_gbp item rate = 0 := by
  obtain ⟨c, g, u⟩ := item
  rcases g with _ | g <;> try rcases g with q | s | _
  all_goals rcases u with _ | u <;> try rcases u with q2 | s2 | _
  all_goals simp_all [get_unit_cost_gbp, pyFloat, numFieldBad]

/-- `get_foam_cost_per_piece` returns 0.0 when the piece count is
missing, non-numeric or non-positive, or both total-cost routes are
unusable. -/
theorem get_foam_cost_per_piece_invalid_zero (item : FoamItem) (rate : ℚ)
    (h : numFieldBad item.num_pieces = true
      ∨ (∃ k : ℚ, item.num_pieces = Option.some (PyVal.num k) ∧ k ≤ 0)
      ∨ (numFieldBad item.total_cost_gbp = true
          ∧ numFieldBad item.total_cost_usd = true)) :
    get_foam_cost_per_piece item rate = 0 := by
  obtain ⟨np, c, tg, tu⟩ := item
  rcases np with _ | n <;> try rcases n with q1 | s1 | _
  all_goals rcases tg with _ | g <;> try rcases g with q2 | s2 | _
  all_goals rcases tu with _ | u <;> try rcases u with q3 | s3 | _
  all_goals simp_all [get_foam_cost_per_piece, getFloat, pyFloat, pyTruthy,
    numFieldBad]

/-- Claim C3, counterexample: a *non-positive* required cost field is
not mapped to 0.0: `get_diode_price_gbp` on a record with
`unit_cost_usd = -5` returns -5, not 0.0; and the Weld-Heads-page copy
of the weld-cost resolver raises (rather than returning 0.0) on a
record whose GBP unit cost is a non-numeric string. -/
theorem C3_unguarded_cost_counterexample :
    get_diode_price_gbp
        { currency := Option.none
          unit_cost_usd := Option.some (PyVal.num (-5))
          unit_cost_gbp := Option.none } 1 = -5
    ∧ (-5 : ℚ) ≠ 0
    ∧ get_weld_cost_per_weld_weld_heads_page
        { currency := Option.some (Option.some "GBP")
          num_welds := Option.some (PyVal.num 10)
          unit_cost_usd := Option.none
          unit_cost_gbp := Option.some (PyVal.str "not a number") } 1
      = Except.error () := by
  have hc1 : currencyOf (Option.none : Option (Option String)) "USD" = "USD" := by
    decide
  have hc2 : currencyOf (Option.some (Option.some "GBP")) "USD" = "GBP" := by
    decide
  refine ⟨?_, by norm_num, ?_⟩
  · simp [get_diode_price_gbp, hc1, pyFloat]
  · simp only [get_weld_cost_per_weld_weld_heads_page, hc2, getFloat, pyFloat]
    rw [if_neg (by norm_num), if_neg (by decide)]

/-- Claim C3 as amended: every unit-cost resolver returns 0.0 and
never raises when a required numeric field is missing or non-numeric,
and when its divisor or geometric fields (width, thickness, density,
number of welds, roll length, disks per roll, volume, pieces) are
non-positive; a non-positive price or cost field, however, is not
guarded (see the counterexample), and the Weld-Heads-page copy of the
weld-cost resolver can raise on a non-numeric cost field. -/
theorem C3_unit_cost_resolver_error_policy :
    (∀ (item : SilverItem) (rate : ℚ) (ov : Option ℚ),
      (numFieldBad item.price_per_g = true
        ∨ (ov = Option.none ∧ numFieldBad item.width_mm = true)
        ∨ numFieldBad item.thickness_mm = true
        ∨ numFieldBad item.density_g_cm3 = true
        ∨ (∃ v : ℚ, v ≤ 0
            ∧ (ov = Option.some v
              ∨ (ov = Option.none ∧ item.width_mm = Option.some (PyVal.num v))
              ∨ item.thickness_mm = Option.some (PyVal.num v)
              ∨ item.density_g_cm3 = Option.some (PyVal.num v)))) →
      get_silver_cost_per_mm item rate ov = 0)
    ∧ (∀ (item : DiodeItem) (rate : ℚ),
        numFieldBad item.unit_cost_usd = true →
        numFieldBad item.unit_cost_gbp = true →
        get_diode_price_gbp item rate = 0)
    ∧ (∀ (item : WeldItem) (rate : ℚ),
        (numFieldBad item.num_welds = true
          ∨ (∃ n : ℚ, item.num_welds = Option.some (PyVal.num n) ∧ n ≤ 0)
          ∨ (numFieldBad item.unit_cost_usd = true
              ∧ numFieldBad item.unit_cost_gbp = true)) →
        get_weld_cost_per_weld_diodes_page item rate = 0
          ∧ get_weld_cost_per_weld_summary_page item rate = 0)
    ∧ (∀ (item : WeldItem) (rate : ℚ),
        (numFieldBad item.num_welds = true
          ∨ (∃ n : ℚ, item.num_welds = Option.some (PyVal.num n) ∧ n ≤ 0)) →
        get_weld_cost_per_weld_weld_heads_page item rate = Except.ok 0)
    ∧ (∀ (item : RollItem) (rate : ℚ),
        (numFieldBad item.roll_length_value = true
          ∨ (∃ L : ℚ, item.roll_length_value = Option.some (PyVal.num L) ∧ L ≤ 0)
          ∨ (numFieldBad item.roll_cost_gbp = true
              ∧ numFieldBad item.roll_cost_usd = true)) →
        get_lamination_cost_per_m item rate = 0 ∧ get_tape_cost_per_m item rate = 0)
    ∧ (∀ (item : KaptonItem) (rate : ℚ),
        numFieldBad item.cost_per_disk_gbp = true →
        (numFieldBad item.disks_per_roll = true
          ∨ (∃ k : ℚ, item.disks_per_roll = Option.some (PyVal.num k) ∧ k ≤ 0)
          ∨ (numFieldBad item.total_cost_gbp = true
              ∧ numFieldBad item.roll_cost_usd = true)) →
        get_kapton_cost_per_disk item rate = 0)
    ∧ (∀ (item : EpoxyItem) (rate : ℚ),
        numFieldBad item.cost_per_ml_gbp = true →
        (numFieldBad item.volume_ml = true
          ∨ (∃ k : ℚ, item.volume_ml = Option.some (PyVal.num k) ∧ k ≤ 0)
          ∨ (numFieldBad item.total_cost_gbp = true
              ∧ numFieldBad item.total_cost_usd = true)) →
        get_epoxy_cost_per_ml item rate = 0)
    ∧ (∀ (item : UnitCostItem) (rate : ℚ),
        numFieldBad item.unit_cost_gbp = true →
        numFieldBad item.unit_cost_usd = true →
        get_unit_cost_gbp item rate = 0)
    ∧ (∀ (item : FoamItem) (rate : ℚ),
        (numFieldBad item.num_pieces = true
          ∨ (∃ k : ℚ, item.num_pieces = Option.some (PyVal.num k) ∧ k ≤ 0)
          ∨ (numFieldBad item.total_cost_gbp = true
              ∧ numFieldBad item.total_cost_usd = true)) →
        get_foam_cost_per_piece item rate = 0) :=
  ⟨get_silver_cost_per_mm_invalid_zero,
    get_diode_price_gbp_invalid_zero,
    fun item rate h =>
      ⟨get_weld_cost_per_weld_diodes_page_invalid_zero item rate h,
        get_weld_cost_per_weld_summary_page_invalid_zero item rate h⟩,
    get_weld_cost_per_weld_weld_heads_page_invalid_zero,
    fun item rate h =>
      ⟨get_lamination_cost_per_m_invalid_zero item rate h,
        get_tape_cost_per_m_invalid_zero item rate h⟩,
    get_kapton_cost_per_disk_invalid_zero,
    get_epoxy_cost_per_ml_invalid_zero,
    get_unit_cost_gbp_invalid_zero,
    get_foam_cost_per_piece_invalid_zero⟩

/-- A frame record for the packaging counterexample catalog. -/
def framePackItem : PackItem := { ty := Option.some (Option.some "Frame") }

/-- A shipping-board record for the packaging counterexample catalog. -/
def boardPackItem : PackItem := { ty := Option.some (Option.some "Shipping board") }

/-- A box record for the packaging counterexample catalog. -/
def boxPackItem : PackItem := { ty := Option.some (Option.some "Box") }

/-- A foam record of thickness 5 mm: neither the required 3 mm nor the
required 25 mm role. -/
def foam5PackItem : PackItem :=
  { ty := Option.some (Option.some "Foam")
    thickness_mm := Option.some (PyVal.num 5) }

/-- A packaging catalog with every role type present but no foam at
3 mm or 25 mm thickness. -/
def badFoamCatalog : List PackItem :=
  [framePackItem, boardPackItem, boxPackItem, foam5PackItem]

/-- On `badFoamCatalog` the standalone Packaging page stops with its
distinct missing-foam configuration error. -/
theorem badFoamCatalog_check_error :
    cost_packaging_config_check badFoamCatalog
      = Except.error "Expected both 3mm and 25mm foam in Packaging." := by
  have hcl : classify_foams [foam5PackItem] = (Option.none, Option.none) := by
    norm_num [classify_foams, foamThickness, getFloat, pyFloat, foam5PackItem]
  have t1 : packTypeIs "frame" framePackItem = true := by decide
  have t2 : packTypeIs "frame" boardPackItem = false := by decide
  have t3 : packTypeIs "frame" boxPackItem = false := by decide
  have t4 : packTypeIs "frame" foam5PackItem = false := by decide
  have t5 : packTypeIs "shipping board" framePackItem = false := by decide
  have t6 : packTypeIs "shipping board" boardPackItem = true := by decide
  have t7 : packTypeIs "shipping board" boxPackItem = false := by decide
  have t8 : packTypeIs "shipping board" foam5PackItem = false := by decide
  have t9 : packTypeIs "foam" framePackItem = false := by decide
  have t10 : packTypeIs "foam" boardPackItem = false := by decide
  have t11 : packTypeIs "foam" boxPackItem = false := by decide
  have t12 : packTypeIs "foam" foam5PackItem = true := by decide
  have t13 : packTypeIs "box" framePackItem = false := by decide
  have t14 : packTypeIs "box" boardPackItem = false := by decide
  have t15 : packTypeIs "box" boxPackItem = true := by decide
  have t16 : packTypeIs "box" foam5PackItem = false := by decide
  simp [cost_packaging_config_check, badFoamCatalog, List.filter, hcl,
    t1, t2, t3, t4, t5, t6, t7, t8, t9, t10, t11, t12, t13, t14, t15, t16]

/-- Whenever the standalone Packaging page would stop with a
configuration error, the Cost Summary packaging block yields a 0.0
category cost. -/
theorem summary_zero_of_config_error (items : List PackItem)
    (frame_idx board_idx box_idx : ℕ) (arrays_per_box : ℤ) (rate : ℚ)
    (msg : String)
    (h : cost_packaging_config_check items = Except.error msg) :
    summary_packaging_cost items frame_idx board_idx box_idx arrays_per_box rate
      = 0 := by
  by_cases h0 : items.isEmpty = true
  · simp [summary_packaging_cost, h0]
  · by_cases hf : (items.filter (packTypeIs "frame")).isEmpty = true
    · simp [summary_packaging_cost, h0, hf]
    · by_cases hb : (items.filter (packTypeIs "shipping board")).isEmpty = true
      · simp [summary_packaging_cost, h0, hf, hb]
      · by_cases hm : (items.filter (packTypeIs "foam")).isEmpty = true
        · simp [summary_packaging_cost, h0, hf, hb, hm]
        · by_cases hx : (items.filter (packTypeIs "box")).isEmpty = true
          · simp [summary_packaging_cost, h0, hf, hb, hm, hx]
          · simp only [cost_packaging_config_check, h0, hf, hb, hm, hx,
              if_false, Bool.false_eq_true, ite_false] at h
            rcases hcf : classify_foams (items.filter (packTypeIs "foam"))
              with ⟨f3, f25⟩
            rcases f3 with _ | f3 <;> rcases f25 with _ | f25 <;>
              rw [hcf] at h <;>
              simp [summary_packaging_cost, h0, hf, hb, hm, hx, hcf] <;>
              simp at h

/-- The Cost Summary packaging block on the mis-configured catalog:
a plain 0.0, indistinguishable from a configured category that costs
nothing. -/
theorem badFoamCatalog_summary_zero :
    summary_packaging_cost badFoamCatalog 0 0 0 4 1 = 0 :=
  summary_zero_of_config_error badFoamCatalog 0 0 0 4 1
    "Expected both 3mm and 25mm foam in Packaging." badFoamCatalog_check_error

/-- Claim C9, counterexample: on a catalog whose only foam is 5 mm
thick, the standalone Packaging page reports the distinct missing-foam
configuration error, but the Cost Summary page's packaging calculator
silently returns a category cost of 0.0 instead of reporting any
error — refuting the claim that every code path reports a
configuration error rather than a silent zero. -/
theorem C9_silent_zero_counterexample :
    cost_packaging_config_check badFoamCatalog
      = Except.error "Expected both 3mm and 25mm foam in Packaging."
    ∧ summary_packaging_cost badFoamCatalog 0 0 0 4 1 = 0 :=
  ⟨badFoamCatalog_check_error, badFoamCatalog_summary_zero⟩

/-- Claim C9 as amended: when a required packaging role is absent (an
empty role category, or no foam at 3.0 mm / 25.0 mm within tolerance
1e-3), the standalone Packaging page reports a distinct configuration
error for that case; the Cost Summary page's packaging calculator does
not report it — it silently contributes a category cost of 0.0 (its
sibling categories, computed independently, still proceed). -/
theorem C9_config_error_handling (items : List PackItem)
    (frame_idx board_idx box_idx : ℕ) (arrays_per_box : ℤ) (rate : ℚ)
    (msg : String)
    (h : cost_packaging_config_check items = Except.error msg) :
    summary_packaging_cost items frame_idx board_idx box_idx arrays_per_box rate
      = 0 :=
  summary_zero_of_config_error items frame_idx board_idx box_idx arrays_per_box
    rate msg h

/-- Claim C9 witness: the amended statement at the concrete
mis-configured catalog. -/
theorem C9_config_error_handling_witness :
    summary_packaging_cost badFoamCatalog 0 0 0 4 1 = 0 :=
  C9_config_error_handling badFoamCatalog 0 0 0 4 1
    "Expected both 3mm and 25mm foam in Packaging." badFoamCatalog_check_error

/-- Claim C10, counterexample: on a weld-head record that omits the
currency field and carries only `unit_cost_usd` (10 dollars for 100
welds, exchange rate 1), the Diodes-page copy defaults the currency to
"USD" and returns 0.1, while the Cost-Summary copy defaults it to
"GBP" and returns 0.0 — the copies do not agree. -/
theorem C10_currency_default_counterexample :
    get_weld_cost_per_weld_diodes_page
        { currency := Option.none
          num_welds := Option.some (PyVal.num 100)
          unit_cost_usd := Option.some (PyVal.num 10)
          unit_cost_gbp := Option.none } 1 = 1 / 10
    ∧ get_weld_cost_per_weld_summary_page
        { currency := Option.none
          num_welds := Option.some (PyVal.num 100)
          unit_cost_usd := Option.some (PyVal.num 10)
          unit_cost_gbp := Option.none } 1 = 0
    ∧ (1 / 10 : ℚ) ≠ 0 := by
  have h1 : currencyOf (Option.none : Option (Option String)) "USD" = "USD" := by
    decide
  have h2 : currencyOf (Option.none : Option (Option String)) "GBP" = "GBP" := by
    decide
  refine ⟨?_, ?_, by norm_num⟩
  · simp only [get_weld_cost_per_weld_diodes_page, h1, getFloat, pyFloat]
    rw [if_neg (by norm_num : ¬((100 : ℚ) ≤ 0))]
    norm_num
  · simp only [get_weld_cost_per_weld_summary_page, h2, getFloat, pyFloat]
    rw [if_neg (by norm_num : ¬((100 : ℚ) ≤ 0)), if_neg (by decide)]

/-- Claim C10 as amended: the three copies of `get_weld_cost_per_weld`
return the same GBP cost per weld for every record that carries an
explicit, non-empty currency string, provided that when that currency
is not "USD" the record's `unit_cost_gbp` is absent or numeric, and
when it is "USD" its `unit_cost_usd` is not a non-numeric string (the
Weld-Heads copy would raise there); they differ on records that omit
the currency field (the Cost-Summary copy defaults to "GBP", the other
two to "USD"). -/
theorem C10_weld_cost_copies_agree (item : WeldItem) (rate : ℚ) (c : String)
    (hc : item.currency = Option.some (Option.some c)) (hcne : c ≠ "")
    (h1 : ∀ s : String, strUpper c = "USD" →
      item.unit_cost_usd ≠ Option.some (PyVal.str s))
    (h2 : strUpper c ≠ "USD" → item.unit_cost_gbp ≠ Option.some PyVal.null)
    (h3 : ∀ s : String, strUpper c ≠ "USD" →
      item.unit_cost_gbp ≠ Option.some (PyVal.str s)) :
    get_weld_cost_per_weld_diodes_page item rate
        = get_weld_cost_per_weld_summary_page item rate
    ∧ get_weld_cost_per_weld_weld_heads_page item rate
        = Except.ok (get_weld_cost_per_weld_diodes_page item rate) := by
  obtain ⟨cur, nw, usd, gbp⟩ := item
  simp only at hc
  subst hc
  have hcu : ∀ d : String,
      currencyOf (Option.some (Option.some c)) d = strUpper c := by
    intro d
    simp [currencyOf, strOrDefault, hcne]
  by_cases hU : strUpper c = "USD"
  all_goals rcases nw with _ | n <;> try rcases n with q | s | _
  all_goals rcases usd with _ | u <;> try rcases u with q2 | s2 | _
  all_goals rcases gbp with _ | g <;> try rcases g with q3 | s3 | _
  all_goals simp_all [get_weld_cost_per_weld_diodes_page,
    get_weld_cost_per_weld_summary_page, get_weld_cost_per_weld_weld_heads_page,
    getFloat, pyFloat, hcu]
  all_goals try (split_ifs <;> simp_all)

/-- Claim C10 witness: the three copies agree on a concrete record
with explicit currency "GBP", 100 welds and a 5 GBP unit cost. -/
theorem C10_weld_cost_copies_agree_witness :
    get_weld_cost_per_weld_diodes_page
        { currency := Option.some (Option.some "GBP")
          num_welds := Option.some (PyVal.num 100)
          unit_cost_usd := Option.none
          unit_cost_gbp := Option.some (PyVal.num 5) } 1
      = get_weld_cost_per_weld_summary_page
        { currency := Option.some (Option.some "GBP")
          num_welds := Option.some (PyVal.num 100)
          unit_cost_usd := Option.none
          unit_cost_gbp := Option.some (PyVal.num 5) } 1
    ∧ get_weld_cost_per_weld_weld_heads_page
        { currency := Option.some (Option.some "GBP")
          num_welds := Option.some (PyVal.num 100)
          unit_cost_usd := Option.none
          unit_cost_gbp := Option.some (PyVal.num 5) } 1
      = Except.ok (get_weld_cost_per_weld_diodes_page
        { currency := Option.some (Option.some "GBP")
          num_welds := Option.some (PyVal.num 100)
          unit_cost_usd := Option.none
          unit_cost_gbp := Option.some (PyVal.num 5) } 1) :=
  C10_weld_cost_copies_agree
    { currency := Option.some (Option.some "GBP")
      num_welds := Option.some (PyVal.num 100)
      unit_cost_usd := Option.none
      unit_cost_gbp := Option.some (PyVal.num 5) } 1 "GBP" rfl (by decide)
    (fun s h => absurd h (by decide))
    (fun _ => by decide)
    (fun s h heq => PyVal.noConfusion (Option.some.inj heq))
